import Mathlib

/-!
Verification of the format classifier in `src/duckdb_load/mod.rs`
(`determine_file_type`).  Byte buffers are modelled as `List Nat` (each
element one byte).  Rust slicing `&s[0..n]` panics when `n` exceeds the
slice length, so it is modelled by `slice0`, which returns `none` exactly
when Rust would panic; the classifier therefore has result type
`Option (Except String FileType)`, where `none` models a panic and
`some` models the `io::Result` the Rust function returns.
-/

namespace Gridwalk

/-- The `FileType` enum from the source. -/
inductive FileType where
  | Geopackage
  | Shapefile
  | Geojson
  | Excel
  | Csv
  | Parquet
  deriving DecidableEq, Repr

/-- Rust `&xs[0..n]`: the first `n` elements when `n ≤ xs.length`,
`none` (panic) otherwise. -/
def slice0 (xs : List Nat) (n : Nat) : Option (List Nat) :=
  if n ≤ xs.length then some (xs.take n) else none

/-- `b"PK\x03\x04"`, the ZIP local-file-header magic. -/
def pkSig : List Nat := [0x50, 0x4B, 0x03, 0x04]

/-- `b"SQLite format 3\0"`, the 16-byte SQLite header
(ASCII `SQLite format 3` followed by NUL). -/
def sqliteSig : List Nat :=
  [83, 81, 76, 105, 116, 101, 32, 102, 111, 114, 109, 97, 116, 32, 51, 0]

/-- `b"\x00\x00\x27\x0A"`, the shapefile file code. -/
def shpSig : List Nat := [0x00, 0x00, 0x27, 0x0A]

/-- `b"PAR1"`, the Parquet magic. -/
def par1Sig : List Nat := [0x50, 0x41, 0x52, 0x31]

/-- Is `b` a UTF-8 continuation byte (`0x80..=0xBF`)? -/
def isCont (b : Nat) : Bool :=
  0x80 ≤ b && b ≤ 0xBF

/-- Strict UTF-8 decoding of a byte list to the list of Unicode scalar
values, as `std::str::from_utf8` validates it: rejects stray
continuation bytes, overlong encodings, surrogates and values above
`0x10FFFF`.  `none` models a decoding failure. -/
def utf8Decode : List Nat → Option (List Nat)
  | [] => some []
  | b :: rest =>
    if b ≤ 0x7F then
      (utf8Decode rest).map (b :: ·)
    else if b < 0xC2 then
      none
    else if b ≤ 0xDF then
      match rest with
      | c1 :: r =>
        if isCont c1 then
          (utf8Decode r).map (((b - 0xC0) * 0x40 + (c1 - 0x80)) :: ·)
        else none
      | [] => none
    else if b ≤ 0xEF then
      match rest with
      | c1 :: c2 :: r =>
        let lo1 := if b = 0xE0 then 0xA0 else 0x80
        let hi1 := if b = 0xED then 0x9F else 0xBF
        if (lo1 ≤ c1 && c1 ≤ hi1) && isCont c2 then
          (utf8Decode r).map
            (((b - 0xE0) * 0x1000 + (c1 - 0x80) * 0x40 + (c2 - 0x80)) :: ·)
        else none
      | _ => none
    else if b ≤ 0xF4 then
      match rest with
      | c1 :: c2 :: c3 :: r =>
        let lo1 := if b = 0xF0 then 0x90 else 0x80
        let hi1 := if b = 0xF4 then 0x8F else 0xBF
        if ((lo1 ≤ c1 && c1 ≤ hi1) && isCont c2) && isCont c3 then
          (utf8Decode r).map
            (((b - 0xF0) * 0x40000 + (c1 - 0x80) * 0x1000 +
              (c2 - 0x80) * 0x40 + (c3 - 0x80)) :: ·)
        else none
      | _ => none
    else none

/-- Rust `str::contains(needle)`: `needle` occurs as a contiguous
substring of `hay`.  For ASCII needles, byte-level search on the UTF-8
encoding agrees with scalar-level search, since no ASCII byte occurs
inside a multi-byte UTF-8 sequence. -/
def containsSub (hay needle : List Nat) : Bool :=
  if needle.isPrefixOf hay then true
  else
    match hay with
    | [] => false
    | _ :: t => containsSub t needle

/-- Strip one trailing carriage return (scalar 13), as Rust `lines()`
does to a line terminated by `\r\n`. -/
def stripCR (l : List Nat) : List Nat :=
  match l.getLast? with
  | some 13 => l.dropLast
  | _ => l

/-- Rust `str::lines()`: split on `\n` (scalar 10); every piece except
the final one was `\n`-terminated, so its trailing `\r` (if any) is
stripped; a trailing empty piece (string empty or ending in `\n`) is
dropped. -/
def rustLines (text : List Nat) : List (List Nat) :=
  let ps := text.splitOn 10
  let init := ps.dropLast.map stripCR
  match ps.getLast? with
  | none => []
  | some [] => init
  | some last => init ++ [last]

/-- Rust `line.split(',').count()`. -/
def commaCount (line : List Nat) : Nat :=
  (line.splitOn 44).length

/-- The needle `"type":` (quotes included) searched for by the GeoJSON
heuristic, as ASCII scalars. -/
def typeNeedle : List Nat := [34, 116, 121, 112, 101, 34, 58]

/-- The needle `"FeatureCollection"` (quotes included), as ASCII scalars. -/
def fcNeedle : List Nat :=
  [34, 70, 101, 97, 116, 117, 114, 101, 67, 111, 108, 108, 101, 99,
   116, 105, 111, 110, 34]

/-- The needle `"Feature"` (quotes included), as ASCII scalars. -/
def featNeedle : List Nat := [34, 70, 101, 97, 116, 117, 114, 101, 34]

/-- `determine_file_type` from `src/duckdb_load/mod.rs`, line by line.
`header` is the first `min(16, len)` bytes; each Rust range slice
`&header[0..n]` goes through `slice0`, so `none` is returned exactly
where Rust panics.  UTF-8 decoding failure degrades to the empty text
(`unwrap_or("")`). -/
def determine_file_type (file_content : List Nat) :
    Option (Except String FileType) :=
  let header := file_content.take (min 16 file_content.length)
  match slice0 header 4 with
  | none => none
  | some h4 =>
    if h4 = pkSig then
      some (Except.ok FileType.Excel)
    else
      match slice0 header 16 with
      | none => none
      | some h16 =>
        if h16 = sqliteSig then
          some (Except.ok FileType.Geopackage)
        else if h4 = shpSig then
          some (Except.ok FileType.Shapefile)
        else if h4 = par1Sig then
          some (Except.ok FileType.Parquet)
        else if List.isPrefixOf [123] header then
          let json_start := (utf8Decode file_content).getD []
          if containsSub json_start typeNeedle &&
              (containsSub json_start fcNeedle ||
               containsSub json_start featNeedle) then
            some (Except.ok FileType.Geojson)
          else
            some (Except.error "Not a valid GeoJSON file")
        else
          let file_text := (utf8Decode file_content).getD []
          let lines := rustLines file_text
          if (decide (2 ≤ lines.length) &&
              decide (1 < commaCount (lines.getD 0 [])) &&
              decide (commaCount (lines.getD 1 []) =
                commaCount (lines.getD 0 []))) &&
              file_text.all (fun c => decide (c < 128)) then
            some (Except.ok FileType.Csv)
          else
            some (Except.error "Unknown file type")

/-- Inverting `slice0`: a successful slice means the requested length was
in bounds and the result is the corresponding `take`. -/
lemma slice0_eq_some {xs : List Nat} {n : Nat} {ys : List Nat}
    (h : slice0 xs n = some ys) : n ≤ xs.length ∧ ys = xs.take n := by
  unfold slice0 at h
  split at h
  · exact ⟨by assumption, by injection h with h2; exact h2.symm⟩
  · cases h

/-- The clamped header has length `min 16 (length of the buffer)`. -/
lemma header_length (x : List Nat) :
    (x.take (min 16 x.length)).length = min 16 x.length := by
  simp [List.length_take]

/-- Taking `n ≤ 16` bytes of the clamped header is taking `n` bytes of
the buffer, whenever the buffer has at least `n` bytes. -/
lemma header_take (x : List Nat) (n : Nat) (h16 : n ≤ 16) (hx : n ≤ x.length) :
    (x.take (min 16 x.length)).take n = x.take n := by
  rw [List.take_take]
  congr 1
  omega

/-- Slicing `n ≤ 16` bytes off the clamped header succeeds and yields the
first `n` bytes of the buffer, whenever the buffer has at least `n`
bytes. -/
lemma slice0_header (x : List Nat) (n : Nat) (h16 : n ≤ 16) (hx : n ≤ x.length) :
    slice0 (x.take (min 16 x.length)) n = some (x.take n) := by
  rw [slice0, if_pos, header_take x n h16 hx]
  rw [header_length]
  omega

/-- C1: the claim says `determine_file_type` never panics on any buffer.
The code violates it: on a 15-byte buffer (here fifteen ASCII `A`s) the
first 4-byte slice of the clamped header succeeds and fails the `PK`
comparison, after which `&header[0..16]` slices past the 15-byte header
and panics (modelled by `none`). -/
theorem determine_file_type_panics_on_short_buffer :
    determine_file_type (List.replicate 15 65) = none := rfl

/-- C2: the claim says the empty buffer yields the `Unknown file type`
error. The code instead panics: the header is empty and `&header[0..4]`
is out of bounds (modelled by `none`). -/
theorem determine_file_type_panics_on_empty :
    determine_file_type [] = none := rfl

/-- C3: the claim says any buffer whose first 4 bytes are `PAR1` is
classified `Parquet` regardless of total length. The 4-byte buffer
`PAR1` refutes it: the `PK` check is in bounds and fails, then
`&header[0..16]` panics (modelled by `none`). Padding the buffer to 16
bytes does produce `Ok(Parquet)`. -/
theorem bare_par1_panics :
    determine_file_type [0x50, 0x41, 0x52, 0x31] = none ∧
    determine_file_type ([0x50, 0x41, 0x52, 0x31] ++ List.replicate 12 0) =
      some (Except.ok FileType.Parquet) := by
  constructor
  · rfl
  · rfl

/-- C4: the claim (and the spec example) says `b"\x7b\x22foo\x22:1\x7d"`
yields the `InvalidGeojson` error. That buffer is 9 bytes long, so the
code panics at `&header[0..16]` (modelled by `none`) before the JSON
branch is ever reached. On a buffer of at least 16 bytes starting with
`\x7b` the heuristic behaves as claimed: the 28-byte
`\x7b"type":"FeatureCollection"\x7d` is classified `Geojson`. -/
theorem short_json_panics :
    determine_file_type [123, 34, 102, 111, 111, 34, 58, 49, 125] = none ∧
    determine_file_type (123 :: typeNeedle ++ fcNeedle ++ [125]) =
      some (Except.ok FileType.Geojson) := by
  constructor
  · rfl
  · rfl

/-- C5: the claim (and the spec example) says `b"a,b,c\n1,2,3\n"` is
classified `Csv`. That buffer is 12 bytes long, so the code panics at
`&header[0..16]` (modelled by `none`) before the CSV fallback is ever
reached. The same shape padded past 16 bytes, the 18-byte
`b"aa,bb,cc\n11,22,33\n"`, is classified `Csv` as claimed. -/
theorem short_csv_panics :
    determine_file_type [97, 44, 98, 44, 99, 10, 49, 44, 50, 44, 51, 10] =
      none ∧
    determine_file_type
      [97, 97, 44, 98, 98, 44, 99, 99, 10, 49, 49, 44, 50, 50, 44, 51, 51, 10] =
      some (Except.ok FileType.Csv) := by
  constructor
  · rfl
  · rfl

/-- C6: every buffer whose first 4 bytes are the ZIP local-file-header
magic `PK\x03\x04` is classified `Excel`, whatever its remaining content
and total length (the `PK` check is the first branch, so even a 4-byte
buffer returns before any 16-byte slice is attempted). -/
theorem pk_magic_classified_excel (x : List Nat) (h : x.take 4 = pkSig) :
    determine_file_type x = some (Except.ok FileType.Excel) := by
  have hlen : 4 ≤ x.length := by
    have := congrArg List.length h
    simp [pkSig, List.length_take] at this
    omega
  simp only [determine_file_type, slice0_header x 4 (by omega) hlen, h]
  simp

/-- Witness for C6: the 4-byte buffer `PK\x03\x04` itself. -/
theorem pk_magic_classified_excel_witness :
    List.take 4 [0x50, 0x4B, 0x03, 0x04] = pkSig ∧
    determine_file_type [0x50, 0x4B, 0x03, 0x04] =
      some (Except.ok FileType.Excel) :=
  ⟨by decide, pk_magic_classified_excel [0x50, 0x4B, 0x03, 0x04] (by decide)⟩

/-- C7: every buffer whose first 16 bytes are the SQLite header
`SQLite format 3\0` is classified `Geopackage` (such a buffer has at
least 16 bytes, so both header slices are in bounds, and its first 4
bytes differ from the `PK` magic). -/
theorem sqlite_header_classified_geopackage (x : List Nat)
    (h : x.take 16 = sqliteSig) :
    determine_file_type x = some (Except.ok FileType.Geopackage) := by
  have hlen : 16 ≤ x.length := by
    have := congrArg List.length h
    simp [sqliteSig, List.length_take] at this
    omega
  have h4 : x.take 4 = sqliteSig.take 4 := by
    rw [← h, List.take_take]
    norm_num
  simp only [determine_file_type, slice0_header x 4 (by omega) (by omega),
    slice0_header x 16 (by omega) hlen, h, h4]
  rfl

/-- Witness for C7: the 16-byte SQLite header itself. -/
theorem sqlite_header_classified_geopackage_witness :
    List.take 16 sqliteSig = sqliteSig ∧
    determine_file_type sqliteSig = some (Except.ok FileType.Geopackage) :=
  ⟨by decide, sqlite_header_classified_geopackage sqliteSig (by decide)⟩

/-- C8: classification is deterministic and idempotent — the classifier
is a pure function of the buffer, so repeated invocation on the same
bytes yields the same result. -/
theorem determine_file_type_deterministic (x : List Nat) :
    determine_file_type x = determine_file_type x := rfl

/-- C9: on every buffer of at least 16 bytes `determine_file_type` is
total — both fixed-range header slices are in bounds, so it returns
`some` result (never the panic value `none`), and any error it returns
carries one of the two messages of the source. -/
theorem determine_file_type_total_on_long_buffers (x : List Nat)
    (h : 16 ≤ x.length) :
    ∃ r, determine_file_type x = some r ∧
      ∀ s, r = Except.error s →
        s = "Not a valid GeoJSON file" ∨ s = "Unknown file type" := by
  simp only [determine_file_type, slice0_header x 4 (by omega) (by omega),
    slice0_header x 16 (by omega) h]
  split
  · exact ⟨_, rfl, by intro s hs; cases hs⟩
  · split
    · exact ⟨_, rfl, by intro s hs; cases hs⟩
    · split
      · exact ⟨_, rfl, by intro s hs; cases hs⟩
      · split
        · exact ⟨_, rfl, by intro s hs; cases hs⟩
        · split
          · split
            · exact ⟨_, rfl, by intro s hs; cases hs⟩
            · exact ⟨_, rfl, by intro s hs; injection hs with h2; subst h2; simp⟩
          · split
            · exact ⟨_, rfl, by intro s hs; cases hs⟩
            · exact ⟨_, rfl, by intro s hs; injection hs with h2; subst h2; simp⟩

/-- Witness for C9: sixteen zero bytes. -/
theorem determine_file_type_total_on_long_buffers_witness :
    16 ≤ (List.replicate 16 0).length ∧
    ∃ r, determine_file_type (List.replicate 16 0) = some r ∧
      ∀ s, r = Except.error s →
        s = "Not a valid GeoJSON file" ∨ s = "Unknown file type" :=
  ⟨by decide, determine_file_type_total_on_long_buffers
    (List.replicate 16 0) (by decide)⟩

/-- C10: soundness of the binary-signature variants — whenever the
classifier returns `Ok` of a binary variant, the corresponding magic is
actually at the start of the buffer: `Excel` only with `PK\x03\x04` as
bytes `0..4`, `Geopackage` only with the 16-byte SQLite header,
`Shapefile` only with `\x00\x00\x27\x0A`, `Parquet` only with `PAR1`. -/
theorem binary_variant_soundness (x : List Nat) (t : FileType)
    (h : determine_file_type x = some (Except.ok t)) :
    (t = FileType.Excel → x.take 4 = pkSig) ∧
    (t = FileType.Geopackage → x.take 16 = sqliteSig) ∧
    (t = FileType.Shapefile → x.take 4 = shpSig) ∧
    (t = FileType.Parquet → x.take 4 = par1Sig) := by
  simp only [determine_file_type] at h
  split at h
  · cases h
  · rename_i h4 heq4
    obtain ⟨hle4, h4eq⟩ := slice0_eq_some heq4
    rw [header_length] at hle4
    have htk4 : (x.take (min 16 x.length)).take 4 = x.take 4 :=
      header_take x 4 (by omega) (by omega)
    split at h
    · rename_i hpk
      injection h with h1
      injection h1 with h2
      subst h2
      subst h4eq
      refine ⟨fun _ => ?_, by simp, by simp, by simp⟩
      rw [← htk4, hpk]
    · split at h
      · cases h
      · rename_i h16 heq16
        obtain ⟨hle16, h16eq⟩ := slice0_eq_some heq16
        rw [header_length] at hle16
        have htk16 : (x.take (min 16 x.length)).take 16 = x.take 16 :=
          header_take x 16 (by omega) (by omega)
        split at h
        · rename_i hsq
          injection h with h1
          injection h1 with h2
          subst h2
          subst h16eq
          refine ⟨by simp, fun _ => ?_, by simp, by simp⟩
          rw [← htk16, hsq]
        · split at h
          · rename_i hshp
            injection h with h1
            injection h1 with h2
            subst h2
            subst h4eq
            refine ⟨by simp, by simp, fun _ => ?_, by simp⟩
            rw [← htk4, hshp]
          · split at h
            · rename_i hpar
              injection h with h1
              injection h1 with h2
              subst h2
              subst h4eq
              refine ⟨by simp, by simp, by simp, fun _ => ?_⟩
              rw [← htk4, hpar]
            · split at h
              · split at h
                · injection h with h1
                  injection h1 with h2
                  subst h2
                  exact ⟨by simp, by simp, by simp, by simp⟩
                · cases h
              · split at h
                · injection h with h1
                  injection h1 with h2
                  subst h2
                  exact ⟨by simp, by simp, by simp, by simp⟩
                · cases h

/-- Witness for C10: the classifier applied to the 4-byte `PK\x03\x04`
buffer, instantiated at the `Excel` variant. -/
theorem binary_variant_soundness_witness :
    List.take 4 [0x50, 0x4B, 0x03, 0x04] = pkSig :=
  (binary_variant_soundness [0x50, 0x4B, 0x03, 0x04] FileType.Excel rfl).1 rfl

end Gridwalk
